import Mathlib

/-!
Shallow embedding of the cnt-agente-ia-frontapp chat widget: the chat view
component (input guard, keydown/submit dispatch, mount-time greeting seed,
markdown renderer with table-wrapping rules, render keys) and the chat
service (single POST pass-through). Stateful view code is modelled as
explicit state passing; the network effect is passed in as a function and
the requests actually issued are returned as a trace.
-/

/-- Message role as in the data model: user or assistant. -/
inductive Role where
  | user
  | assistant
deriving DecidableEq, Repr

/-- Chat message record: role, content, timestamp in epoch milliseconds, and
an optional provider tag. -/
structure Message where
  role : Role
  content : String
  timestamp : Nat
  provider : Option String
deriving DecidableEq, Repr

/-- Characters removed by the JavaScript String.prototype.trim call used in
the view guard (the ASCII whitespace and line-terminator characters). -/
def isJsWhitespace (c : Char) : Bool :=
  c == ' ' || c == '\t' || c == '\n' || c == '\r' || c == '\x0b' || c == '\x0c'

/-- JavaScript String.prototype.trim: drop leading and trailing whitespace. -/
def jsTrim (s : String) : String :=
  String.mk (((s.data.dropWhile isJsWhitespace).reverse.dropWhile isJsWhitespace).reverse)

/-- View-observable state: the input box model value plus the two chat-store
fields the view reads (the thread and the waiting flag). -/
structure ViewState where
  newMessage : String
  messages : List Message
  isTyping : Bool
deriving DecidableEq, Repr

/-- Record of one store sendMessage invocation issued by the view: the text
argument passed, and the contents of the input box at the moment the call
starts (so the order of clearing versus calling is observable). -/
structure SendCall where
  text : String
  inputAtCall : String
deriving DecidableEq, Repr

/-- handleSend from the view script: return early when the trimmed input is
empty or the store is waiting; otherwise snapshot the raw input, clear the
box, then call the store with the snapshot. The result pairs the view state
after the synchronous part with the list of store calls issued. -/
def handleSend (st : ViewState) : ViewState × List SendCall :=
  if jsTrim st.newMessage == "" || st.isTyping then (st, [])
  else
    let text := st.newMessage
    let cleared : ViewState := { st with newMessage := "" }
    (cleared, [{ text := text, inputAtCall := cleared.newMessage }])

/-- Keyboard event as seen by the keydown binding: the key name and whether
Shift is held. -/
structure KeyEvent where
  key : String
  shiftKey : Bool
deriving DecidableEq, Repr

/-- Guard compiled from the template binding keydown.enter.prevent on the
textarea: the enter modifier tests only the key name; the binding carries no
exact modifier and no shift filter, so modifier keys are not examined. -/
def enterKeydownFires (e : KeyEvent) : Bool :=
  e.key == "Enter"

/-- Effect of one keydown event on the view: when the enter binding fires,
handleSend runs; otherwise nothing happens. -/
def dispatchKeydown (e : KeyEvent) (st : ViewState) : ViewState × List SendCall :=
  if enterKeydownFires e then handleSend st else (st, [])

/-- Effect of an explicit form submit (submit.prevent binding): handleSend
always runs. -/
def dispatchSubmit (st : ViewState) : ViewState × List SendCall :=
  handleSend st

/-- Greeting message pushed by the onMounted hook when the thread is empty,
with the timestamp taken from the clock at mount time. -/
def greetingMessage (now : Nat) : Message :=
  { role := .assistant
    content := "¡Hola! Soy el Agente de la Prefectura del Guayas. ¿En qué puedo ayudarte hoy?"
    timestamp := now
    provider := none }

/-- Thread seeding performed by the onMounted hook: push one greeting when
the thread length is zero, otherwise leave the thread alone. -/
def onMountedSeed (messages : List Message) (now : Nat) : List Message :=
  if messages.length = 0 then messages ++ [greetingMessage now] else messages

/-- Render keys of the thread as bound in the v-for: the key of the message
at index i is msg.timestamp + i. -/
def renderKeys (ms : List Message) : List Nat :=
  ms.enum.map (fun p => p.2.timestamp + p.1)

/-- Token kinds relevant to the table-wrapping renderer rules: the table
open and close tokens, and every other token abstracted by the text its
default rendering emits. -/
inductive Tok where
  | table_open
  | table_close
  | other (s : String)
deriving DecidableEq, Repr

/-- Default renderToken of the underlying renderer, restricted to the tag
text emitted for each token kind. -/
def renderToken : Tok → String
  | .table_open => "<table>"
  | .table_close => "</table>"
  | .other s => s

/-- Overridden table_open rule from the view script: emit the container div
opening tag, then the default rendering of the token. -/
def tableOpenRule (t : Tok) : String :=
  "<div class=\"table-container\">" ++ renderToken t

/-- Overridden table_close rule from the view script: emit the default
rendering of the token, then the closing div tag. -/
def tableCloseRule (t : Tok) : String :=
  renderToken t ++ "</div>"

/-- Mutable rule table of the md instance: the two renderer rules that the
view script assigns at module load. -/
structure MdState where
  tableOpen : Tok → String
  tableClose : Tok → String

/-- Rule table of the md instance after the two assignments in the view
script have run. -/
def mdInit : MdState :=
  { tableOpen := tableOpenRule, tableClose := tableCloseRule }

/-- Render one token through the rules of an instance state: table tokens go
through the installed rules, every other token through the default. -/
def renderTokWith (st : MdState) : Tok → String
  | .table_open => st.tableOpen .table_open
  | .table_close => st.tableClose .table_close
  | .other s => renderToken (.other s)

/-- Per-token rendered chunks of a token stream under the installed rules. -/
def renderTokens (ts : List Tok) : List String :=
  ts.map (renderTokWith mdInit)

/-- md.render modelled at token granularity: the output together with the
instance state after the call; the renderer reads the rule table and writes
nothing, so the state comes back unchanged. -/
def mdRender (st : MdState) (ts : List Tok) : String × MdState :=
  (String.join (ts.map (renderTokWith st)), st)

/-- renderMarkdown from the view: tokenize the content, then render through
the md instance. The tokenizer is any function of the content alone, which
matches the underlying library parsing with fresh per-call state. -/
def renderMarkdown (parse : String → List Tok) (st : MdState) (content : String) : String × MdState :=
  mdRender st (parse content)

/-- Chunk emitted for a table_open token under the installed rules: the
container div opening immediately followed by the table opening. -/
def containerOpenChunk : String :=
  "<div class=\"table-container\"><table>"

/-- Chunk emitted for a table_close token under the installed rules: the
table closing immediately followed by the container div closing. -/
def containerCloseChunk : String :=
  "</table></div>"

/-- HTTP response wrapper: the service reads only the data field. -/
structure HttpResponse (α : Type) where
  data : α
deriving DecidableEq, Repr

/-- Request body posted by ChatService.sendMessage: exactly the three fields
message, history and provider. -/
structure ChatRequestBody (η : Type) where
  message : String
  history : List η
  provider : Option String
deriving DecidableEq, Repr

/-- One POST request issued by the service: endpoint name and body. -/
structure PostRequest (η : Type) where
  endpoint : String
  body : ChatRequestBody η
deriving DecidableEq, Repr

/-- ChatService.sendMessage: build the body from the three arguments, post
it once to the chat endpoint, return the data field of the response; the
catch branch logs and rethrows the very error value it caught. The network
effect is the post argument; the second component lists the requests
issued, and the payload type is abstract because the service neither
validates nor transforms the response. -/
def ChatService.sendMessage {α ε η : Type}
    (post : String → ChatRequestBody η → Except ε (HttpResponse α))
    (message : String) (history : List η) (provider : Option String) :
    Except ε α × List (PostRequest η) :=
  let body : ChatRequestBody η := { message := message, history := history, provider := provider }
  match post "chat" body with
  | .ok response => (.ok response.data, [{ endpoint := "chat", body := body }])
  | .error e => (.error e, [{ endpoint := "chat", body := body }])

/-- Response body shape of the chat endpoint as declared by the service. -/
structure ChatResponse where
  message : String
  response : String
  provider : Option String
  contextUsed : Option Bool
deriving DecidableEq, Repr

/-- Chat-store state: the ordered thread and the waiting flag. -/
structure ChatStoreState where
  messages : List Message
  isTyping : Bool
deriving DecidableEq, Repr

/-- Modelled from the spec: the fixed, user-legible generic failure notice
the store appends on transport failure. The store source is not under src,
and the spec fixes only that the string is a constant independent of the
input and of the error, not its wording. -/
def storeErrorNotice : String :=
  "Lo siento, ha ocurrido un error. Por favor intenta de nuevo."

/-- Modelled from the spec: the chat store sendMessage; the store module
itself is not under src, only its callers are. Per the spec it pushes the
user message synchronously, sets the waiting flag, awaits the service, on
success pushes an assistant message carrying the returned text and provider
tag, on failure pushes an assistant message with the fixed notice, and
clears the flag on both paths; the exception is absorbed, so the result
type is plain state with no error channel. The service outcome and the
clock reading are passed in as values. -/
def chatStoreSendMessage {ε : Type} (svc : Except ε ChatResponse)
    (text : String) (now : Nat) (st : ChatStoreState) : ChatStoreState :=
  let afterUser : ChatStoreState :=
    { messages := st.messages ++ [{ role := .user, content := text, timestamp := now, provider := none }]
      isTyping := true }
  match svc with
  | .ok r =>
      { messages := afterUser.messages ++
          [{ role := .assistant, content := r.response, timestamp := now, provider := r.provider }]
        isTyping := false }
  | .error _ =>
      { messages := afterUser.messages ++
          [{ role := .assistant, content := storeErrorNotice, timestamp := now, provider := none }]
        isTyping := false }

/-- Rendered chunks of a token list count zero occurrences of a chunk that
no member token renders to. -/
theorem count_renderTokens_eq_zero (c : String) (ts : List Tok)
    (h : ∀ t ∈ ts, renderTokWith mdInit t ≠ c) : (renderTokens ts).count c = 0 := by
  rw [List.count_eq_zero]
  intro hmem
  rcases List.mem_map.mp hmem with ⟨t, ht, heq⟩
  exact h t ht heq

/-- C1 counterexample: in the view, pressing Enter with Shift held on a
non-empty, non-waiting state does trigger a send of the input box contents,
contrary to the claim that Shift plus Enter does not submit. -/
theorem c1_shift_enter_submits :
    (dispatchKeydown { key := "Enter", shiftKey := true }
      { newMessage := "hola", messages := [], isTyping := false }).2
      = [{ text := "hola", inputAtCall := "" }] := by
  decide

/-- C1 (amended): a send is triggered on explicit form submit or on any
Enter keydown regardless of the Shift key, and on no other key; the enter
binding carries no modifier excluding Shift. -/
theorem c1_enter_submits_regardless_of_shift (st : ViewState) (s : Bool) (k : String) :
    dispatchSubmit st = handleSend st ∧
    dispatchKeydown { key := "Enter", shiftKey := s } st = handleSend st ∧
    (k ≠ "Enter" → dispatchKeydown { key := k, shiftKey := s } st = (st, [])) := by
  refine ⟨rfl, ?_, ?_⟩
  · simp [dispatchKeydown, enterKeydownFires]
  · intro hk
    simp [dispatchKeydown, enterKeydownFires, hk]

/-- C1 witness: the amended behavior at a concrete state, with Shift held
and with a non-Enter key. -/
theorem c1_enter_submits_regardless_of_shift_witness :
    dispatchSubmit { newMessage := "hola", messages := [], isTyping := false }
      = handleSend { newMessage := "hola", messages := [], isTyping := false } ∧
    dispatchKeydown { key := "Enter", shiftKey := true }
        { newMessage := "hola", messages := [], isTyping := false }
      = handleSend { newMessage := "hola", messages := [], isTyping := false } ∧
    dispatchKeydown { key := "a", shiftKey := true }
        { newMessage := "hola", messages := [], isTyping := false }
      = ({ newMessage := "hola", messages := [], isTyping := false }, []) := by
  refine ⟨?_, ?_, ?_⟩
  · exact (c1_enter_submits_regardless_of_shift
      { newMessage := "hola", messages := [], isTyping := false } true "a").1
  · exact (c1_enter_submits_regardless_of_shift
      { newMessage := "hola", messages := [], isTyping := false } true "a").2.1
  · exact (c1_enter_submits_regardless_of_shift
      { newMessage := "hola", messages := [], isTyping := false } true "a").2.2 (by decide)

/-- C2: when the trimmed input is empty or the waiting flag is already true,
handleSend issues no send and leaves the whole view state, in particular
the thread and the waiting flag, unchanged. -/
theorem c2_guard_noop (st : ViewState)
    (h : jsTrim st.newMessage = "" ∨ st.isTyping = true) :
    (handleSend st).2 = [] ∧ (handleSend st).1 = st := by
  have hguard : (jsTrim st.newMessage == "" || st.isTyping) = true := by
    rcases h with h | h
    · simp [h]
    · simp [h]
  unfold handleSend
  rw [hguard]
  exact ⟨rfl, rfl⟩

/-- C2 witness: the guard no-op at a whitespace-only input. -/
theorem c2_guard_noop_witness :
    (handleSend { newMessage := "  \t ", messages := [], isTyping := false }).2 = [] ∧
    (handleSend { newMessage := "  \t ", messages := [], isTyping := false }).1
      = { newMessage := "  \t ", messages := [], isTyping := false } :=
  c2_guard_noop { newMessage := "  \t ", messages := [], isTyping := false }
    (Or.inl (by decide))

/-- C3: for a token stream with exactly one table, rendered under the
installed rules, the output is the surrounding chunks with exactly one
container-open chunk, placing the container div right outside the single
table element, and exactly one matching container-close chunk; the counts
hold whenever no other token renders to either marker chunk. -/
theorem c3_single_table_single_container (ts1 ts2 ts3 : List Tok)
    (hTable : ∀ t ∈ ts1 ++ ts2 ++ ts3, t ≠ Tok.table_open ∧ t ≠ Tok.table_close)
    (hChunk : ∀ t ∈ ts1 ++ ts2 ++ ts3,
      renderTokWith mdInit t ≠ containerOpenChunk ∧ renderTokWith mdInit t ≠ containerCloseChunk) :
    renderTokens (ts1 ++ Tok.table_open :: (ts2 ++ Tok.table_close :: ts3))
      = renderTokens ts1 ++ containerOpenChunk ::
          (renderTokens ts2 ++ containerCloseChunk :: renderTokens ts3) ∧
    (renderTokens (ts1 ++ Tok.table_open :: (ts2 ++ Tok.table_close :: ts3))).count
        containerOpenChunk = 1 ∧
    (renderTokens (ts1 ++ Tok.table_open :: (ts2 ++ Tok.table_close :: ts3))).count
        containerCloseChunk = 1 := by
  have hopen : renderTokWith mdInit Tok.table_open = containerOpenChunk := by decide
  have hclose : renderTokWith mdInit Tok.table_close = containerCloseChunk := by decide
  have heq : renderTokens (ts1 ++ Tok.table_open :: (ts2 ++ Tok.table_close :: ts3))
      = renderTokens ts1 ++ containerOpenChunk ::
          (renderTokens ts2 ++ containerCloseChunk :: renderTokens ts3) := by
    simp [renderTokens, hopen, hclose]
  have h1 : ∀ t ∈ ts1, renderTokWith mdInit t ≠ containerOpenChunk ∧
      renderTokWith mdInit t ≠ containerCloseChunk := by
    intro t ht
    exact hChunk t (by simp [ht])
  have h2 : ∀ t ∈ ts2, renderTokWith mdInit t ≠ containerOpenChunk ∧
      renderTokWith mdInit t ≠ containerCloseChunk := by
    intro t ht
    exact hChunk t (by simp [ht])
  have h3 : ∀ t ∈ ts3, renderTokWith mdInit t ≠ containerOpenChunk ∧
      renderTokWith mdInit t ≠ containerCloseChunk := by
    intro t ht
    exact hChunk t (by simp [ht])
  refine ⟨heq, ?_, ?_⟩
  · rw [heq]
    rw [List.count_append, List.count_cons, List.count_append, List.count_cons]
    rw [count_renderTokens_eq_zero _ _ (fun t ht => (h1 t ht).1),
        count_renderTokens_eq_zero _ _ (fun t ht => (h2 t ht).1),
        count_renderTokens_eq_zero _ _ (fun t ht => (h3 t ht).1)]
    simp [containerOpenChunk, containerCloseChunk]
  · rw [heq]
    rw [List.count_append, List.count_cons, List.count_append, List.count_cons]
    rw [count_renderTokens_eq_zero _ _ (fun t ht => (h1 t ht).2),
        count_renderTokens_eq_zero _ _ (fun t ht => (h2 t ht).2),
        count_renderTokens_eq_zero _ _ (fun t ht => (h3 t ht).2)]
    simp [containerOpenChunk, containerCloseChunk]

/-- C3 witness: a concrete stream with one table surrounded by plain chunks
renders to exactly one container wrapping the table. -/
theorem c3_single_table_single_container_witness :
    renderTokens ([Tok.other "<p>x</p>"] ++ Tok.table_open ::
        ([Tok.other "<tr><td>1</td></tr>"] ++ Tok.table_close :: []))
      = renderTokens [Tok.other "<p>x</p>"] ++ containerOpenChunk ::
          (renderTokens [Tok.other "<tr><td>1</td></tr>"] ++
            containerCloseChunk :: renderTokens []) ∧
    (renderTokens ([Tok.other "<p>x</p>"] ++ Tok.table_open ::
        ([Tok.other "<tr><td>1</td></tr>"] ++ Tok.table_close :: []))).count
        containerOpenChunk = 1 ∧
    (renderTokens ([Tok.other "<p>x</p>"] ++ Tok.table_open ::
        ([Tok.other "<tr><td>1</td></tr>"] ++ Tok.table_close :: []))).count
        containerCloseChunk = 1 :=
  c3_single_table_single_container [Tok.other "<p>x</p>"] [Tok.other "<tr><td>1</td></tr>"] []
    (by decide) (by decide)

/-- C4: the markdown transform is deterministic and stateless: rendering the
same content twice in sequence through renderMarkdown, threading the md
instance state from the first call into the second, yields identical output,
and the instance state is unchanged by a render. -/
theorem c4_render_deterministic (parse : String → List Tok) (st : MdState) (content : String) :
    (renderMarkdown parse ((renderMarkdown parse st content).2) content).1
      = (renderMarkdown parse st content).1 ∧
    (renderMarkdown parse st content).2 = st :=
  ⟨rfl, rfl⟩

/-- C5: when the post to the chat endpoint fails, ChatService.sendMessage
propagates the very error value it caught and has issued exactly one
request, so it never retries. -/
theorem c5_error_passthrough_no_retry {α ε η : Type}
    (post : String → ChatRequestBody η → Except ε (HttpResponse α))
    (message : String) (history : List η) (provider : Option String) (e : ε)
    (h : post "chat" { message := message, history := history, provider := provider }
      = .error e) :
    ChatService.sendMessage post message history provider
      = (.error e,
         [{ endpoint := "chat",
            body := { message := message, history := history, provider := provider } }]) := by
  simp only [ChatService.sendMessage]
  rw [h]

/-- C5 witness: a concrete always-failing transport yields the same error
value and a single issued request. -/
theorem c5_error_passthrough_no_retry_witness :
    ChatService.sendMessage
        (fun (_ : String) (_ : ChatRequestBody Nat) =>
          (Except.error "boom" : Except String (HttpResponse Nat)))
        "hola" [] none
      = (.error "boom",
         [{ endpoint := "chat", body := { message := "hola", history := [], provider := none } }]) :=
  c5_error_passthrough_no_retry
    (fun _ _ => (Except.error "boom" : Except String (HttpResponse Nat)))
    "hola" [] none "boom" rfl

/-- C6: on success, ChatService.sendMessage posts exactly one request to the
chat endpoint whose body is exactly the three arguments, and returns the
data payload of the response unchanged, the payload type being abstract. -/
theorem c6_success_posts_body_returns_data {α ε η : Type}
    (post : String → ChatRequestBody η → Except ε (HttpResponse α))
    (message : String) (history : List η) (provider : Option String) (d : α)
    (h : post "chat" { message := message, history := history, provider := provider }
      = .ok { data := d }) :
    ChatService.sendMessage post message history provider
      = (.ok d,
         [{ endpoint := "chat",
            body := { message := message, history := history, provider := provider } }]) := by
  simp only [ChatService.sendMessage]
  rw [h]

/-- C6 witness: a concrete successful transport returns the payload as is
with the exact body posted once. -/
theorem c6_success_posts_body_returns_data_witness :
    ChatService.sendMessage
        (fun (_ : String) (_ : ChatRequestBody Nat) =>
          (Except.ok { data := 42 } : Except String (HttpResponse Nat)))
        "hola" [7] (some "gemini")
      = (.ok 42,
         [{ endpoint := "chat",
            body := { message := "hola", history := [7], provider := some "gemini" } }]) :=
  c6_success_posts_body_returns_data
    (fun _ _ => (Except.ok { data := 42 } : Except String (HttpResponse Nat)))
    "hola" [7] (some "gemini") 42 rfl

/-- C7: the mount-time seed appends exactly one synthetic assistant greeting
when and only when the thread is empty; a non-empty thread is unchanged. -/
theorem c7_seed_iff_empty (ms : List Message) (now : Nat) :
    (ms = [] → onMountedSeed ms now = [greetingMessage now]) ∧
    (ms ≠ [] → onMountedSeed ms now = ms) := by
  constructor
  · intro h
    subst h
    rfl
  · intro h
    unfold onMountedSeed
    rw [if_neg]
    simpa using h

/-- C7 witness: the seed at an empty thread and at a one-message thread. -/
theorem c7_seed_iff_empty_witness :
    onMountedSeed [] 3 = [greetingMessage 3] ∧
    onMountedSeed [greetingMessage 3] 5 = [greetingMessage 3] :=
  ⟨(c7_seed_iff_empty [] 3).1 rfl,
   (c7_seed_iff_empty [greetingMessage 3] 5).2 (by simp)⟩

/-- C8: when the service call fails, the store sendMessage appends the user
message and then exactly one assistant message whose content is the fixed
notice, ends with the waiting flag false, and, its result type being plain
state, propagates no exception. -/
theorem c8_error_appends_notice {ε : Type} (svc : Except ε ChatResponse) (e : ε)
    (text : String) (now : Nat) (st : ChatStoreState)
    (htext : jsTrim text ≠ "") (hsvc : svc = .error e) :
    chatStoreSendMessage svc text now st
      = { messages := st.messages ++
            [{ role := .user, content := text, timestamp := now, provider := none },
             { role := .assistant, content := storeErrorNotice, timestamp := now, provider := none }]
          isTyping := false } := by
  subst hsvc
  simp [chatStoreSendMessage]

/-- C8 witness: the failure path at a concrete text, error and state. -/
theorem c8_error_appends_notice_witness :
    chatStoreSendMessage (Except.error "down" : Except String ChatResponse) "hola" 9
        { messages := [], isTyping := false }
      = { messages :=
            [{ role := .user, content := "hola", timestamp := 9, provider := none },
             { role := .assistant, content := storeErrorNotice, timestamp := 9, provider := none }]
          isTyping := false } :=
  c8_error_appends_notice (Except.error "down") "down" "hola" 9
    { messages := [], isTyping := false } (by decide) rfl

/-- C9: when the guard passes, handleSend leaves the input box empty before
the store call starts, and the text passed to the store is the original
untrimmed input; the trimmed form is used only inside the guard. -/
theorem c9_clear_then_send_untrimmed (st : ViewState)
    (h1 : jsTrim st.newMessage ≠ "") (h2 : st.isTyping = false) :
    handleSend st
      = ({ st with newMessage := "" },
         [{ text := st.newMessage, inputAtCall := "" }]) := by
  have hguard : (jsTrim st.newMessage == "" || st.isTyping) = false := by
    simp [h1, h2]
  unfold handleSend
  rw [hguard]
  simp

/-- C9 witness: an input with surrounding whitespace is sent untrimmed, with
the box already cleared at call time. -/
theorem c9_clear_then_send_untrimmed_witness :
    handleSend { newMessage := "  hola  ", messages := [], isTyping := false }
      = ({ newMessage := "", messages := [], isTyping := false },
         [{ text := "  hola  ", inputAtCall := "" }]) :=
  c9_clear_then_send_untrimmed
    { newMessage := "  hola  ", messages := [], isTyping := false } (by decide) rfl

/-- C10: render keys are timestamp plus index, and the key function is not
injective: two distinct adjacent messages whose timestamps differ by exactly
one millisecond receive equal render keys. -/
theorem c10_render_keys_collide :
    ∃ m1 m2 : Message, m1 ≠ m2 ∧ m1.timestamp = m2.timestamp + 1 ∧
      renderKeys [m1, m2] = [m1.timestamp + 0, m2.timestamp + 1] ∧
      ¬ (renderKeys [m1, m2]).Nodup := by
  refine ⟨{ role := .assistant, content := "a", timestamp := 5, provider := none },
          { role := .user, content := "b", timestamp := 4, provider := none },
          ?_, rfl, ?_, ?_⟩
  · decide
  · decide
  · decide
